import Mathlib

/-!
Verification development for the telegram-cron scheduling daemon
(`telegram_cron_service.py`).  Python strings are modelled as `List Char`,
Python tuples as products, raised exceptions as `Except` values, and the
operating-system surface (file existence, current directory, home
directory, cron-library validation) as an explicit `Env` record of
oracles.  Each definition mirrors one function or code block of the
source file; the theorems at the end of the file settle the specified
properties of the service.
-/

namespace TelegramCron

/-- Python strings are modelled as lists of characters. -/
abbrev Str := List Char

/-! ## Process executor (`ScriptExecutor.execute`, lines 59-98)

The behaviour of the operating system when `subprocess.run` is invoked is
external; it is abstracted as a `ProcResult` describing what the child
process did: normal completion, a timeout (with whatever output had been
buffered when the process was killed), or an exception raised while
launching or running the process. -/

/-- Outcome of the external `subprocess.run` call: normal completion,
`subprocess.TimeoutExpired` (carrying the output buffered before the
forced termination), or any other raised exception with its message. -/
inductive ProcResult where
  | completed (returncode : Int) (stdout stderr : Str)
  | timedOut (bufferedOut bufferedErr : Str)
  | raised (msg : Str)
deriving DecidableEq

/-- The f-string of line 95: `"Script execution timed out after {timeout} seconds"`. -/
def timeoutMsg (timeout : Nat) : Str :=
  "Script execution timed out after ".data ++ (toString timeout).data ++ " seconds".data

/-- Lines 83-98 of `ScriptExecutor.execute`: on normal completion the
triple `(returncode, stdout, stderr)` is returned; on
`subprocess.TimeoutExpired` the triple `(-1, "", timeout message)` is
returned (the buffered output is not consulted); on any other exception
the triple `(-1, "", str(e))` is returned.  The function is total: no
exception escapes to the caller. -/
def ScriptExecutor.execute (timeout : Nat) (outcome : ProcResult) : Int × Str × Str :=
  match outcome with
  | .completed rc out err => (rc, out, err)
  | .timedOut _ _ => (-1, [], timeoutMsg timeout)
  | .raised msg => (-1, [], msg)

/-- `script_path.endswith(".py")` of line 74. -/
def endsWithPy (s : Str) : Bool := List.isSuffixOf ".py".data s

/-- Lines 72-81: the command vector passed to `subprocess.run`.  A path
ending in `.py` runs under `sys.executable` (abstracted as `py`), any
other path under `/bin/bash`; the job's argument list is appended when
nonempty (`if args:`). -/
def buildCmd (py script : Str) (args : List Str) : List Str :=
  let cmd := if endsWithPy script then [py, script] else ["/bin/bash".data, script]
  if args ≠ [] then cmd ++ args else cmd

/-! ## Notification policy (`CronJob.execute`, lines 165-181) -/

/-- Characters removed by Python `str.strip()` (the ASCII whitespace
characters; the source sentinel comparison only ever meets ASCII text). -/
def isPySpace (c : Char) : Bool :=
  c = ' ' || c = '\t' || c = '\n' || c = '\r' || c = '\x0b' || c = '\x0c'

/-- Python `str.strip()`: removes leading and trailing whitespace. -/
def pyStrip (s : Str) : Str :=
  ((s.dropWhile isPySpace).reverse.dropWhile isPySpace).reverse

/-- The suppression sentinel of line 166. -/
def noupdateStr : Str := "NOUPDATE".data

/-- Line 170: `f"<b>{self.name}</b>\n"`. -/
def headerSection (name : Str) : Str := "<b>".data ++ name ++ "</b>\n".data

/-- Lines 172-173: `if stdout: message += f"\n{stdout[:3000]}\n"`. -/
def outSection (stdout : Str) : Str :=
  if stdout = [] then [] else '\n' :: (stdout.take 3000 ++ ['\n'])

/-- Lines 175-176: `if stderr and (exit_code != 0 or self.send_errors):
message += f"<b>Errors:</b>\n<pre>{stderr[:1000]}</pre>\n"`. -/
def errSection (sendErrors : Bool) (exitCode : Int) (stderr : Str) : Str :=
  if stderr ≠ [] ∧ (exitCode ≠ 0 ∨ sendErrors = true) then
    "<b>Errors:</b>\n<pre>".data ++ stderr.take 1000 ++ "</pre>\n".data
  else []

/-- Lines 178-179: `if exit_code != 0: message += f"\n<b>Exit Code:</b> {exit_code}"`. -/
def exitSection (exitCode : Int) : Str :=
  if exitCode ≠ 0 then "\n<b>Exit Code:</b> ".data ++ (toString exitCode).data else []

/-- The message assembled by the successive `+=` of lines 170-179. -/
def composeMessage (name : Str) (sendErrors : Bool) (exitCode : Int)
    (stdout stderr : Str) : Str :=
  headerSection name ++ outSection stdout ++ errSection sendErrors exitCode stderr
    ++ exitSection exitCode

/-- Lines 165-181: the notification policy.  If the stripped standard
output equals the sentinel `NOUPDATE` no message is sent (`none`);
otherwise the composed message is dispatched. -/
def decideMessage (name : Str) (sendErrors : Bool) (exitCode : Int)
    (stdout stderr : Str) : Option Str :=
  if pyStrip stdout = noupdateStr then none
  else some (composeMessage name sendErrors exitCode stdout stderr)

example : pyStrip "  NOUPDATE\n".data = noupdateStr := by decide
example : decideMessage "j".data true 3 " NOUPDATE ".data "e".data = none := by decide
example : buildCmd "python3".data "a.py".data ["x".data] =
    ["python3".data, "a.py".data, "x".data] := by decide
example : ScriptExecutor.execute 300 (.timedOut "buf".data []) =
    (-1, [], timeoutMsg 300) := by decide

/-! ## The operating-system environment

File-system state, the current working directory, the user database and
the cron-library validator (`croniter(expr)` succeeding or raising) are
external to the program; they are abstracted as oracles in a record. -/

/-- The external environment seen by the service: which paths exist on
disk, which cron strings the `croniter` constructor accepts, the current
working directory (`os.getcwd`), the invoking user's home directory and
the home directories of named users (`None` when the user is unknown). -/
structure Env where
  pathExists : Str → Bool
  validCron : Str → Bool
  cwd : Str
  home : Str
  userHome : Str → Option Str

/-! ## POSIX path operations (`os.path` on a POSIX system)

These mirror the CPython `posixpath` implementations of `isabs`, `join`,
`normpath`, `abspath` and `expanduser` used by lines 109-118. -/

/-- `posixpath.isabs`: the path begins with a slash. -/
def isabs (p : Str) : Bool :=
  match p with
  | c :: _ => c == '/'
  | [] => false

/-- `p.endswith("/")`. -/
def endsWithSlash (p : Str) : Bool := p.getLast? == some '/'

/-- `posixpath.join(a, b)` for two components: an absolute second
component replaces the first; otherwise a separator is inserted unless
the first component is empty or already ends in one. -/
def joinPath (a b : Str) : Str :=
  if isabs b then b
  else if a = [] || endsWithSlash a then a ++ b
  else a ++ '/' :: b

/-- `p.split("/")`. -/
def splitSlash : Str → List Str
  | [] => [[]]
  | c :: rest =>
      let r := splitSlash rest
      if c = '/' then [] :: r
      else
        match r with
        | h :: t => (c :: h) :: t
        | [] => [[c]]

/-- The component-normalisation loop of `posixpath.normpath`: empty and
`.` components are dropped; `..` cancels a preceding real component
except at the start of a relative path or after an uncancelled `..`. -/
def normParts (initialSlashes : Nat) (comps : List Str) : List Str :=
  comps.foldl
    (fun acc comp =>
      if comp = [] ∨ comp = ['.'] then acc
      else if comp ≠ ['.', '.'] ∨ (initialSlashes = 0 ∧ acc = [])
              ∨ acc.getLast? = some ['.', '.'] then acc ++ [comp]
      else if acc ≠ [] then acc.dropLast else acc)
    []

/-- `posixpath.normpath`: collapses duplicate separators and resolves
`.`/`..` components textually; one or two leading slashes are preserved
(three or more collapse to one).  An absolute input always yields a
nonempty result beginning with its slashes, so the trailing `or "."` of
the Python code only matters for relative inputs. -/
def normpath (p : Str) : Str :=
  if p = [] then ['.']
  else if isabs p then
    let k : Nat := if p.take 2 = ['/', '/'] ∧ p.take 3 ≠ ['/', '/', '/'] then 2 else 1
    List.replicate k '/' ++ List.intercalate ['/'] (normParts k (splitSlash p))
  else
    let res := List.intercalate ['/'] (normParts 0 (splitSlash p))
    if res = [] then ['.'] else res

/-- `posixpath.abspath`: a relative path is joined to the current working
directory, then the result is normalised. -/
def abspath (env : Env) (p : Str) : Str :=
  if isabs p then normpath p else normpath (joinPath env.cwd p)

/-- `uh.rstrip("/")` on the resolved home directory. -/
def stripTrailingSlashes (p : Str) : Str :=
  (p.reverse.dropWhile (fun c => c = '/')).reverse

/-- `posixpath.expanduser`: a path not beginning with `~` is unchanged;
`~` or `~/...` expands to the invoking user's home directory; `~user/...`
expands through the user database and is returned unchanged when the
user is unknown; the expansion of `~` alone against an all-slash home
yields `/`. -/
def expanduser (env : Env) (p : Str) : Str :=
  match p with
  | '~' :: rest =>
      let user := rest.takeWhile (fun c => c ≠ '/')
      let tail := rest.dropWhile (fun c => c ≠ '/')
      let uh? : Option Str := if user = [] then some env.home else env.userHome user
      match uh? with
      | none => p
      | some uh =>
          let r := stripTrailingSlashes uh ++ tail
          if r = [] then ['/'] else r
  | _ => p

/-- Lines 109-118 of `CronJob.__init__`: a relative script path is
resolved against `base_dir` when one is provided and nonempty (Python
truthiness of `if base_dir:`), otherwise against the current working
directory; an absolute script path only undergoes `os.path.expanduser`. -/
def resolveScript (env : Env) (baseDir : Option Str) (scriptPath : Str) : Str :=
  if isabs scriptPath then expanduser env scriptPath
  else
    match baseDir with
    | some bd => if bd = [] then abspath env scriptPath
                 else abspath env (joinPath bd scriptPath)
    | none => abspath env scriptPath

example : normpath "/etc//app/./x/../run.sh".data = "/etc/app/run.sh".data := by decide
example : joinPath "/etc/app".data "run.sh".data = "/etc/app/run.sh".data := by decide

/-! ## Job records and the registry (`CronJob.__init__`, `TelegramCronService`) -/

/-- One job definition as read from the `jobs:` mapping of the YAML
configuration, with the defaults of lines 122-125. -/
structure JobConfig where
  schedule : Str
  script : Str
  timeout : Nat := 300
  enabled : Bool := true
  sendErrors : Bool := true
  args : List Str := []
deriving DecidableEq

/-- A validated job record (lines 104-139).  The runtime fields
`lastRun`/`nextRun` are instants in minutes; both start unset/fresh at
construction (`next_run` is then immediately computed from the wall
clock, which is external to this model). -/
structure CronJob where
  name : Str
  schedule : Str
  script : Str
  timeout : Nat
  enabled : Bool
  sendErrors : Bool
  args : List Str
  lastRun : Option Nat := none
  nextRun : Option Nat := none
deriving DecidableEq

/-- Lines 104-135 of `CronJob.__init__`: the script path is resolved
first; a cron expression rejected by `croniter` raises `ValueError`
(modelled as `.error`), then a resolved script path that does not exist
on disk raises `ValueError`. -/
def mkCronJob (env : Env) (name : Str) (cfg : JobConfig) (baseDir : Option Str) :
    Except Str CronJob :=
  let script := resolveScript env baseDir cfg.script
  if env.validCron cfg.schedule = false then
    .error ("Invalid cron expression: ".data ++ cfg.schedule)
  else if env.pathExists script = false then
    .error ("Script not found: ".data ++ script)
  else
    .ok { name := name, schedule := cfg.schedule, script := script,
          timeout := cfg.timeout, enabled := cfg.enabled,
          sendErrors := cfg.sendErrors, args := cfg.args }

/-- Lines 221-235 of `TelegramCronService.load_jobs`: each definition is
constructed inside a `try`; a failing construction is logged and skipped
while the remaining definitions are still processed in order. -/
def loadJobs (env : Env) (baseDir : Option Str) :
    List (Str × JobConfig) → List (Str × CronJob)
  | [] => []
  | (n, cfg) :: rest =>
      match mkCronJob env n cfg baseDir with
      | .ok j => (n, j) :: loadJobs env baseDir rest
      | .error _ => loadJobs env baseDir rest

/-- Presence or absence of the keys inspected by `load_config`
(lines 202-219): the `telegram` section with its two credentials, and
the optional `jobs` mapping. -/
structure RawConfig where
  telegram : Option (Option Str × Option Str)
  jobs : Option (List (Str × JobConfig))

/-- Message of line 210. -/
def missingTelegramMsg : Str := "Missing telegram section in config".data

/-- Lines 208-214: validation of the loaded YAML mapping.  A missing
`telegram` section or a missing credential raises `ValueError`, which
`load_config` re-raises, aborting `TelegramCronService.__init__` and so
the whole startup. -/
def validateConfig (c : RawConfig) : Except Str RawConfig :=
  match c.telegram with
  | none => .error missingTelegramMsg
  | some (botToken, chatId) =>
      match botToken with
      | none => .error "Missing telegram.bot_token in config".data
      | some _ =>
          match chatId with
          | none => .error "Missing telegram.chat_id in config".data
          | some _ => .ok c

/-- Startup (`TelegramCronService.__init__`, lines 191-199): a
configuration error is fatal and propagates; otherwise the registry is
built from the `jobs` mapping (an absent mapping yields an empty
registry, lines 224-226). -/
def serviceInit (env : Env) (baseDir : Option Str) (c : RawConfig) :
    Except Str (List (Str × CronJob)) :=
  match validateConfig c with
  | .error e => .error e
  | .ok cfg =>
      .ok (loadJobs env baseDir (match cfg.jobs with | none => [] | some js => js))

/-! ## Command-line entry point (`main`, lines 274-287) -/

/-- Observable outcome of `main` before the service loop is entered:
the `sys.exit` code if any, and the lines written to standard output and
to standard error. -/
structure MainResult where
  exitCode : Option Nat
  stdoutOut : List Str
  stderrOut : List Str
deriving DecidableEq

/-- Line 277. -/
def usageMsg : Str := "Usage: telegram_cron_service.py <config_file>".data

/-- Line 283. -/
def notFoundMsg (cf : Str) : Str := "Config file not found: ".data ++ cf

/-- Lines 274-287: with an argument count other than two
(program name plus one positional argument) the usage line is printed —
by `print`, hence to standard output — and the process exits with code 1;
with a nonexistent configuration file the diagnostic is likewise printed
to standard output and the process exits with code 1; otherwise the
service is constructed and run. -/
def mainEntry (pathExists : Str → Bool) (argv : List Str) : MainResult :=
  if argv.length ≠ 2 then
    { exitCode := some 1, stdoutOut := [usageMsg], stderrOut := [] }
  else
    let cf := argv.getD 1 []
    if pathExists cf = false then
      { exitCode := some 1, stdoutOut := [notFoundMsg cf], stderrOut := [] }
    else
      { exitCode := none, stdoutOut := [], stderrOut := [] }

/-! ## Schedule evaluator

Modelled from the spec: the cron-expression evaluator used by
`CronJob.calculate_next_run` (lines 141-145) is the external `croniter`
library, whose sources are not part of this repository.  Following the
spec, an instant is a minute count, a 5-field cron expression lists the
admissible minute, hour, day-of-month, month and day-of-week values, and
the evaluator returns the next matching instant strictly after the
reference instant. -/

/-- Modelled from the spec: a parsed 5-field cron expression (minute,
hour, day-of-month, month, day-of-week), each field the list of values
it admits. -/
structure CronExpr where
  minutes : List Nat
  hours : List Nat
  doms : List Nat
  months : List Nat
  dows : List Nat
deriving DecidableEq

/-- Civil date (year, month 1-12, day 1-31) of a day count since
1970-01-01, by the standard era-based conversion. -/
def civilFromDays (z0 : Nat) : Nat × Nat × Nat :=
  let z := z0 + 719468
  let era := z / 146097
  let doe := z % 146097
  let yoe := (doe - doe / 1460 + doe / 36524 - doe / 146096) / 365
  let y := yoe + era * 400
  let doy := doe - (365 * yoe + yoe / 4 - yoe / 100)
  let mp := (5 * doy + 2) / 153
  let d := doy - (153 * mp + 2) / 5 + 1
  let m := if mp < 10 then mp + 3 else mp - 9
  (if m ≤ 2 then y + 1 else y, m, d)

/-- The five cron fields of an instant given in minutes since the epoch
(1970-01-01 00:00, a Thursday, hence the `+ 4` in the weekday). -/
def instantFields (t : Nat) : Nat × Nat × Nat × Nat × Nat :=
  let days := t / 1440
  let civil := civilFromDays days
  (t % 60, t / 60 % 24, civil.2.2, civil.2.1, (days + 4) % 7)

/-- Modelled from the spec: an instant matches a cron expression when
each of its five fields is admitted. -/
def cronMatches (e : CronExpr) (t : Nat) : Bool :=
  let f := instantFields t
  e.minutes.contains f.1 && e.hours.contains f.2.1 && e.doms.contains f.2.2.1
    && e.months.contains f.2.2.2.1 && e.dows.contains f.2.2.2.2

/-- Fuel-bounded linear search for the first matching instant at or
after `t`. -/
def searchNext (e : CronExpr) : Nat → Nat → Option Nat
  | 0, _ => none
  | fuel + 1, t => if cronMatches e t then some t else searchNext e fuel (t + 1)

/-- Search horizon: four years of minutes, past any cron period. -/
def cronSearchFuel : Nat := 4 * 366 * 1440

/-- Modelled from the spec: `next(schedule, reference)` — the evaluator
behind `croniter(self.schedule, now).get_next(datetime)` of lines
143-145.  The search starts one minute after the reference instant, so
the result is never the reference itself. -/
def cronNext (e : CronExpr) (reference : Nat) : Option Nat :=
  searchNext e cronSearchFuel (reference + 1)

/-- Lines 147-155 of `CronJob.should_run`: a disabled job is never due;
otherwise the job is due when `next_run` is set and now is at or past
it. -/
def shouldRun (j : CronJob) (now : Nat) : Bool :=
  if j.enabled = false then false
  else
    match j.nextRun with
    | some nr => decide (nr ≤ now)
    | none => false

/-- A cron expression admitting every instant (`* * * * *`). -/
def everyMinute : CronExpr :=
  { minutes := List.range 60, hours := List.range 24,
    doms := List.range' 1 31, months := List.range' 1 12,
    dows := List.range 7 }

example : cronNext everyMinute 0 = some 1 := by decide
example : instantFields 0 = (0, 0, 1, 1, 4) := by decide

/-- A concrete environment for evaluating the model on closed inputs:
every path exists, only the five-star expression is a valid cron string,
and the directories are fixed. -/
def env0 : Env :=
  { pathExists := fun _ => true,
    validCron := fun s => s = "* * * * *".data,
    cwd := "/srv".data, home := "/root".data, userHome := fun _ => none }

/-- A job definition whose 4-field schedule the cron validator rejects. -/
def badCfg : JobConfig := { schedule := "* * * *".data, script := "a.sh".data }

/-- A job definition that validates under `env0`. -/
def goodCfg : JobConfig := { schedule := "* * * * *".data, script := "b.sh".data }

/-! ## Theorems -/

/-- C1: for every job (name, `send_errors` flag) and every execution
result, if the captured standard output stripped of leading and trailing
whitespace equals exactly `NOUPDATE`, the notification policy produces
no message, regardless of the exit status and of the standard-error
contents. -/
theorem noupdate_suppressed (name : Str) (se : Bool) (ec : Int) (out err : Str)
    (h : pyStrip out = noupdateStr) :
    decideMessage name se ec out err = none := by
  simp [decideMessage, h]

/-- Witness for `noupdate_suppressed`: a stdout of `" NOUPDATE\n"` with
exit status `-7` and nonempty stderr yields no message. -/
theorem noupdate_suppressed_witness :
    pyStrip " NOUPDATE\n".data = noupdateStr ∧
    decideMessage "backup".data true (-7) " NOUPDATE\n".data "boom".data = none :=
  ⟨by decide, noupdate_suppressed "backup".data true (-7) " NOUPDATE\n".data "boom".data
    (by decide)⟩

/-- C5: in every non-suppressed message the standard output appears
truncated to its first 3000 characters: it contributes exactly
`"\n" ++ stdout[:3000] ++ "\n"` and nothing else (no marker), an output
of length 3001 appears as exactly 3000 characters, and an output of
length exactly 3000 is unchanged. -/
theorem stdout_truncation (name : Str) (se : Bool) (ec : Int) (out err : Str)
    (h : pyStrip out ≠ noupdateStr) :
    decideMessage name se ec out err =
      some (headerSection name ++ outSection out ++ errSection se ec err
        ++ exitSection ec)
    ∧ (out ≠ [] → outSection out = '\n' :: (out.take 3000 ++ ['\n']))
    ∧ (out.length = 3001 → (out.take 3000).length = 3000)
    ∧ (out.length = 3000 → out.take 3000 = out) := by
  refine ⟨by simp [decideMessage, h, composeMessage], ?_, ?_, ?_⟩
  · intro hne
    simp [outSection, hne]
  · intro hlen
    rw [List.length_take, hlen]
    decide
  · intro hlen
    exact List.take_of_length_le (by omega)

/-- Witness for `stdout_truncation` at stdout `"hi"`. -/
theorem stdout_truncation_witness :
    pyStrip "hi".data ≠ noupdateStr ∧
    decideMessage "j".data true 0 "hi".data [] =
      some (headerSection "j".data ++ outSection "hi".data ++ errSection true 0 []
        ++ exitSection 0) :=
  ⟨by decide, (stdout_truncation "j".data true 0 "hi".data [] (by decide)).1⟩

/-- C6: in every non-suppressed message with nonempty captured standard
error, the error section — the standard error truncated to its first
1000 characters, wrapped by the literal error markup — is present if and
only if the exit status is nonzero or the job's `send_errors` flag is
true. -/
theorem stderr_inclusion (name : Str) (se : Bool) (ec : Int) (out err : Str)
    (hsup : pyStrip out ≠ noupdateStr) (hne : err ≠ []) :
    decideMessage name se ec out err =
      some (headerSection name ++ outSection out ++ errSection se ec err
        ++ exitSection ec)
    ∧ (errSection se ec err ≠ [] ↔ (ec ≠ 0 ∨ se = true))
    ∧ (errSection se ec err ≠ [] →
        errSection se ec err =
          "<b>Errors:</b>\n<pre>".data ++ err.take 1000 ++ "</pre>\n".data) := by
  have hblock : ("<b>Errors:</b>\n<pre>".data ++ err.take 1000
      ++ "</pre>\n".data : Str) ≠ [] := by
    intro hx
    have h1 := (List.append_eq_nil.mp (List.append_eq_nil.mp hx).1).1
    exact absurd h1 (by decide)
  refine ⟨by simp [decideMessage, hsup, composeMessage], ?_, ?_⟩
  · constructor
    · intro hnz
      by_cases hc : ec ≠ 0 ∨ se = true
      · exact hc
      · exact absurd (by rw [errSection, if_neg (fun hand => hc hand.2)]) hnz
    · intro hc
      rw [errSection, if_pos ⟨hne, hc⟩]
      exact hblock
  · intro hnz
    by_cases hc : ec ≠ 0 ∨ se = true
    · rw [errSection, if_pos ⟨hne, hc⟩]
    · exact absurd (by rw [errSection, if_neg (fun hand => hc hand.2)]) hnz

/-- Witness for `stderr_inclusion`: exit status 1 with `send_errors`
false still carries the error section. -/
theorem stderr_inclusion_witness :
    pyStrip "out".data ≠ noupdateStr ∧ ("err".data : Str) ≠ [] ∧
    ((errSection false 1 "err".data ≠ []) ↔ ((1 : Int) ≠ 0 ∨ false = true)) :=
  ⟨by decide, by decide,
    (stderr_inclusion "j".data false 1 "out".data "err".data (by decide)
      (by decide)).2.1⟩

/-- C3 counterexample: a process killed at its 300-second timeout with
the output `"partial output"` buffered yields a result whose captured
standard output is empty — the buffered output is not contained in it,
contradicting the claim that it is returned. -/
theorem timeout_discards_buffered_output :
    (ScriptExecutor.execute 300 (.timedOut "partial output".data "x".data)).2.1 = [] ∧
    ¬ ∃ l r : Str,
        (ScriptExecutor.execute 300 (.timedOut "partial output".data "x".data)).2.1 =
          l ++ "partial output".data ++ r := by
  refine ⟨rfl, ?_⟩
  rintro ⟨l, r, h⟩
  have h0 : ([] : Str) = l ++ "partial output".data ++ r := h
  have hl := congrArg List.length h0
  have h14 : ("partial output".data).length = 14 := rfl
  simp only [List.length_nil, List.length_append, h14] at hl
  omega

/-- C3 (amended): if the process does not terminate within the timeout,
the executor's result is exactly the triple `(-1, "", timeout message)`:
a non-zero synthetic exit status and an error message describing the
timeout, with the standard output returned empty — any output buffered
before the forced termination is discarded, and the triple carries no
separate timed-out flag. -/
theorem timeout_result (timeout : Nat) (bufferedOut bufferedErr : Str) :
    ScriptExecutor.execute timeout (.timedOut bufferedOut bufferedErr) =
      (-1, [], timeoutMsg timeout) ∧ (-1 : Int) ≠ 0 :=
  ⟨rfl, by decide⟩

/-- C4: any exception raised while launching or running the process
(missing interpreter, permission error, I/O failure) makes the executor
return the triple `(-1, "", str(e))`: a non-zero synthetic exit status
and the exception's descriptive text; the executor is a total function,
so no exception escapes to its caller. -/
theorem launch_failure_reported (timeout : Nat) (msg : Str) :
    ScriptExecutor.execute timeout (.raised msg) = (-1, [], msg) ∧ (-1 : Int) ≠ 0 :=
  ⟨rfl, by decide⟩

/-- The fuel-bounded search never returns an instant below its starting
point. -/
theorem searchNext_le_of_some (e : CronExpr) :
    ∀ fuel s t : Nat, searchNext e fuel s = some t → s ≤ t := by
  intro fuel
  induction fuel with
  | zero => intro s t h; simp [searchNext] at h
  | succ n ih =>
      intro s t h
      by_cases hm : cronMatches e s = true
      · have : s = t := by simpa [searchNext, hm] using h
        omega
      · have h2 : searchNext e n (s + 1) = some t := by
          simpa [searchNext, hm] using h
        have := ih (s + 1) t h2
        omega

/-- C2: the schedule evaluator returns an instant strictly greater than
the reference instant, never equal; consequently a `next_run` recomputed
at an execution instant at or past the previous `next_run` (the
due-condition of `should_run`) is strictly greater than both that
instant and the previous value — `next_run` never decreases. -/
theorem cronNext_strictly_future (e : CronExpr) (T now t t' : Nat)
    (h : cronNext e T = some t) :
    T < t ∧ (t ≤ now → cronNext e now = some t' → t < t' ∧ now < t') := by
  have h1 := searchNext_le_of_some e cronSearchFuel (T + 1) t h
  refine ⟨by omega, ?_⟩
  intro hle h2
  have h3 := searchNext_le_of_some e cronSearchFuel (now + 1) t' h2
  omega

/-- Witness for `cronNext_strictly_future`: under the five-star schedule
the evaluator at reference 0 yields 1, and recomputing at instant 5
yields 6 — strictly future both times, and never decreasing. -/
theorem cronNext_strictly_future_witness :
    cronNext everyMinute 0 = some 1 ∧ cronNext everyMinute 5 = some 6 ∧
    (0 < 1 ∧ (1 ≤ 5 → cronNext everyMinute 5 = some 6 → 1 < 6 ∧ 5 < 6)) :=
  ⟨by decide, by decide, cronNext_strictly_future everyMinute 0 5 1 6 (by decide)⟩

/-- C7: a job definition whose construction fails is dropped from the
registry without affecting the remaining definitions (removing it from
the configuration yields the same registry); every definition that
constructs successfully appears in the registry; and a configuration
without a `telegram` section makes startup abort with a fatal error. -/
theorem invalid_job_dropped_individually :
    (∀ env baseDir pre post n cfg e, mkCronJob env n cfg baseDir = .error e →
        loadJobs env baseDir (pre ++ (n, cfg) :: post) =
          loadJobs env baseDir (pre ++ post))
    ∧ (∀ env baseDir l m mc j, (m, mc) ∈ l → mkCronJob env m mc baseDir = .ok j →
        m ∈ (loadJobs env baseDir l).map Prod.fst)
    ∧ (∀ env baseDir c, c.telegram = none →
        serviceInit env baseDir c = .error missingTelegramMsg) := by
  refine ⟨?_, ?_, ?_⟩
  · intro env baseDir pre post n cfg e he
    induction pre with
    | nil => simp [loadJobs, he]
    | cons hd tl ih =>
        obtain ⟨m, mc⟩ := hd
        cases hmk : mkCronJob env m mc baseDir with
        | ok j =>
            simp only [List.cons_append, loadJobs, hmk]
            exact congrArg (fun x => (m, j) :: x) ih
        | error e2 =>
            simp only [List.cons_append, loadJobs, hmk]
            exact ih
  · intro env baseDir l
    induction l with
    | nil => intro m mc j hmem _; cases hmem
    | cons hd tl ih =>
        intro m mc j hmem hok
        obtain ⟨a, ac⟩ := hd
        rcases List.mem_cons.mp hmem with heq | htl
        · injection heq with h1 h2
          subst h1; subst h2
          simp only [loadJobs, hok, List.map_cons]
          exact List.mem_cons_self _ _
        · cases hmk : mkCronJob env a ac baseDir with
          | ok j2 =>
              simp only [loadJobs, hmk, List.map_cons]
              exact List.mem_cons_of_mem _ (ih m mc j htl hok)
          | error e2 =>
              simp only [loadJobs, hmk]
              exact ih m mc j htl hok
  · intro env baseDir c hc
    simp [serviceInit, validateConfig, hc]

/-- Witness for `invalid_job_dropped_individually`: under `env0` the
4-field schedule fails construction and the registry of a two-job
configuration equals that of the configuration with the bad job
removed. -/
theorem invalid_job_dropped_individually_witness :
    mkCronJob env0 "bad".data badCfg (some "/etc/app".data) =
      .error ("Invalid cron expression: ".data ++ "* * * *".data) ∧
    loadJobs env0 (some "/etc/app".data)
        ([] ++ ("bad".data, badCfg) :: [("good".data, goodCfg)]) =
      loadJobs env0 (some "/etc/app".data) ([] ++ [("good".data, goodCfg)]) :=
  ⟨by rfl,
    invalid_job_dropped_individually.1 env0 (some "/etc/app".data) []
      [("good".data, goodCfg)] "bad".data badCfg
      ("Invalid cron expression: ".data ++ "* * * *".data) (by rfl)⟩

/-- C8 counterexample: invoked on a nonexistent configuration file, the
entry point exits with code 1 but writes nothing to the error stream —
the diagnostic goes to standard output via `print`, contradicting the
claim that it is written to the error stream. -/
theorem missing_config_diagnostic_on_stdout :
    (mainEntry (fun _ => false)
        ["telegram_cron_service.py".data, "conf.yaml".data]).exitCode = some 1 ∧
    (mainEntry (fun _ => false)
        ["telegram_cron_service.py".data, "conf.yaml".data]).stderrOut = [] ∧
    ¬ notFoundMsg "conf.yaml".data ∈
        (mainEntry (fun _ => false)
          ["telegram_cron_service.py".data, "conf.yaml".data]).stderrOut ∧
    (mainEntry (fun _ => false)
        ["telegram_cron_service.py".data, "conf.yaml".data]).stdoutOut =
      [notFoundMsg "conf.yaml".data] := by
  refine ⟨by decide, by decide, by decide, by decide⟩

/-- C8 (amended): the entry point exits with code 1 and writes its
diagnostic to standard output (not the error stream) when the
configuration-file argument names a missing file, and exits with code 1
with a usage line on standard output when the argument count is not
exactly one positional argument. -/
theorem cli_exit_codes (pe : Str → Bool) (p cf : Str) (h : pe cf = false) :
    mainEntry pe [p, cf] =
      { exitCode := some 1, stdoutOut := [notFoundMsg cf], stderrOut := [] }
    ∧ ∀ argv : List Str, argv.length ≠ 2 →
        mainEntry pe argv =
          { exitCode := some 1, stdoutOut := [usageMsg], stderrOut := [] } := by
  constructor
  · simp [mainEntry, h]
  · intro argv hn
    simp [mainEntry, hn]

/-- Witness for `cli_exit_codes` at a concrete missing file. -/
theorem cli_exit_codes_witness :
    (fun _ : Str => false) "conf.yaml".data = false ∧
    mainEntry (fun _ => false) ["prog".data, "conf.yaml".data] =
      { exitCode := some 1, stdoutOut := [notFoundMsg "conf.yaml".data],
        stderrOut := [] } :=
  ⟨rfl, (cli_exit_codes (fun _ => false) "prog".data "conf.yaml".data rfl).1⟩

/-- Joining anything to an absolute first component stays absolute. -/
theorem isabs_joinPath (a b : Str) (ha : isabs a = true) :
    isabs (joinPath a b) = true := by
  cases a with
  | nil => simp [isabs] at ha
  | cons c t =>
      have hc : c = '/' := by
        have h1 := ha
        simp [isabs] at h1
        exact h1
      subst hc
      unfold joinPath
      split_ifs with h1 h2
      · exact h1
      · simp [List.cons_append, isabs]
      · simp [List.cons_append, isabs]

/-- Normalising an absolute path yields an absolute path. -/
theorem isabs_normpath (p : Str) (hp : isabs p = true) :
    isabs (normpath p) = true := by
  have hne : p ≠ [] := by
    cases p with
    | nil => simp [isabs] at hp
    | cons c t => simp
  unfold normpath
  rw [if_neg hne, if_pos hp]
  by_cases h2 : p.take 2 = ['/', '/'] ∧ p.take 3 ≠ ['/', '/', '/']
  · rw [if_pos h2]
    simp [List.replicate_succ, isabs]
  · rw [if_neg h2]
    simp [List.replicate_succ, isabs]

/-- C9: at load time with the configuration directory supplied (an
absolute directory, as `os.path.dirname(os.path.abspath(...))` always
produces), a relative script path is resolved to the absolute
normalisation of its join with that directory — an absolute result —
while an absolute script path only undergoes home-directory
expansion. -/
theorem script_path_resolution (env : Env) (bd script : Str)
    (hbd : isabs bd = true) :
    (isabs script = false →
        resolveScript env (some bd) script = abspath env (joinPath bd script) ∧
        isabs (resolveScript env (some bd) script) = true)
    ∧ (isabs script = true →
        resolveScript env (some bd) script = expanduser env script) := by
  have hbdne : bd ≠ [] := by
    cases bd with
    | nil => simp [isabs] at hbd
    | cons c t => simp
  constructor
  · intro hrel
    have hres : resolveScript env (some bd) script =
        abspath env (joinPath bd script) := by
      simp [resolveScript, hrel, hbdne]
    refine ⟨hres, ?_⟩
    rw [hres]
    have hj := isabs_joinPath bd script hbd
    rw [abspath, if_pos hj]
    exact isabs_normpath _ hj
  · intro habs
    simp [resolveScript, habs]

/-- Witness for `script_path_resolution`: a relative `run.sh` against
the absolute directory `/etc/app`. -/
theorem script_path_resolution_witness :
    isabs "/etc/app".data = true ∧
    resolveScript env0 (some "/etc/app".data) "run.sh".data =
      abspath env0 (joinPath "/etc/app".data "run.sh".data) :=
  ⟨by decide,
    ((script_path_resolution env0 "/etc/app".data "run.sh".data (by decide)).1
      (by decide)).1⟩

/-- C10: the command vector never names the script file first: a path
ending in `.py` runs under the Python interpreter and every other path
under `/bin/bash`, with the script as first argument and the job's
argument list appended verbatim, in order, after it. -/
theorem interpreter_selection (py script : Str) (args : List Str) :
    buildCmd py script args =
      (if endsWithPy script then py else "/bin/bash".data) :: script :: args := by
  unfold buildCmd
  cases args with
  | nil => by_cases hpy : endsWithPy script <;> simp [hpy]
  | cons a t => by_cases hpy : endsWithPy script <;> simp [hpy]

end TelegramCron
